import Mathlib

/-!
# mpp-initializer: a shallow embedding of `main.go`

The program is one Kubernetes initializer controller.  This development embeds
`initializeStatefulset`, `configmapToTerm` and the startup part of `main` as
executable Lean functions and proves properties of them.

Conventions of the embedding:

* a Go pointer `*T` is `Option T` (`none` is `nil`);
* a Go slice is a `List` (a nil slice and an empty slice are both `[]`);
* a Go `error` is `Option Error` (`none` is `nil`);
* a run-time panic is an explicit outcome, never a missing result;
* every call that leaves the function (logging, deep copy, JSON encoding, patch
  computation, the API request) is recorded, in order, in a list of calls;
* the library functions whose code is not part of the program (`json.Marshal`,
  `strategicpatch.CreateTwoWayMergePatch`, the API server answering `Patch`,
  `yaml.Unmarshal`, the client constructors) are parameters of the model;
* the fields of the Kubernetes API structs that the program never reads or
  writes are kept as one abstract component `Other : ρ` of each struct.
-/

namespace MppInitializer

/-! ## Data model -/

/-- A Go `error` value that is not nil, identified with its message. -/
abbrev Error := String

/-- A Go `[]byte` holding encoded text. -/
abbrev Bytes := String

/-- The patch types of `k8s.io/apimachinery/pkg/types`. -/
inductive PatchType where
  | JSONPatchType
  | MergePatchType
  | StrategicMergePatchType
  deriving DecidableEq, Repr

/-- The struct `metav1.LabelSelectorRequirement`. -/
structure LabelSelectorRequirement where
  Key : String
  Operator : String
  Values : List String
  deriving DecidableEq, Repr

/-- The struct `metav1.LabelSelector`; `MatchLabels` is a Go map, kept as an
association list. -/
structure LabelSelector where
  MatchLabels : List (String × String)
  MatchExpressions : List LabelSelectorRequirement
  deriving DecidableEq, Repr

/-- The struct `corev1.PodAffinityTerm`, the value loaded from the ConfigMap. -/
structure PodAffinityTerm where
  LabelSelector : Option LabelSelector
  Namespaces : List String
  TopologyKey : String
  deriving DecidableEq, Repr

/-- The struct `metav1.Initializer`. -/
structure Initializer where
  Name : String
  deriving DecidableEq, Repr

/-- The struct `metav1.Initializers`: the pending list and the optional
`Result *Status`. -/
structure Initializers (ρ : Type) where
  Pending : List Initializer
  Result : Option ρ
  deriving DecidableEq, Repr

/-- The struct `metav1.ObjectMeta`. -/
structure ObjectMeta (ρ : Type) where
  Name : String
  Namespace : String
  Initializers : Option (Initializers ρ)
  Other : ρ
  deriving DecidableEq, Repr

/-- The struct `corev1.PodAntiAffinity`; `Other` holds
`PreferredDuringSchedulingIgnoredDuringExecution`. -/
structure PodAntiAffinity (ρ : Type) where
  RequiredDuringSchedulingIgnoredDuringExecution : List PodAffinityTerm
  Other : ρ
  deriving DecidableEq, Repr

/-- The struct `corev1.Affinity`; `Other` holds `NodeAffinity` and
`PodAffinity`. -/
structure Affinity (ρ : Type) where
  PodAntiAffinity : Option (PodAntiAffinity ρ)
  Other : ρ
  deriving DecidableEq, Repr

/-- The struct `corev1.PodSpec`. -/
structure PodSpec (ρ : Type) where
  Affinity : Option (Affinity ρ)
  Other : ρ
  deriving DecidableEq, Repr

/-- The struct `corev1.PodTemplateSpec`; `Other` holds its own metadata. -/
structure PodTemplateSpec (ρ : Type) where
  Spec : PodSpec ρ
  Other : ρ
  deriving DecidableEq, Repr

/-- The struct `v1.StatefulSetSpec`. -/
structure StatefulSetSpec (ρ : Type) where
  Template : PodTemplateSpec ρ
  Other : ρ
  deriving DecidableEq, Repr

/-- The struct `v1.StatefulSet`; `Other` holds `TypeMeta` and `Status`. -/
structure StatefulSet (ρ : Type) where
  ObjectMeta : ObjectMeta ρ
  Spec : StatefulSetSpec ρ
  Other : ρ
  deriving DecidableEq, Repr

/-- The struct `corev1.ConfigMap`, reduced to its `Data` map. -/
structure ConfigMap where
  Data : List (String × String)
  deriving DecidableEq, Repr

/-- The two run-time panics the program can raise. -/
inductive Panic where
  | indexOutOfRange
  | nilPointerDereference
  deriving DecidableEq, Repr

/-- How a call of a Go function with result type `error` ends. -/
inductive Outcome where
  | panicked (p : Panic)
  | returned (err : Option Error)
  deriving DecidableEq, Repr

/-- A call leaving `initializeStatefulset`, with its arguments. -/
inductive Call (ρ : Type) where
  | logPrintf (line : String)
  | deepCopyInto (ss : StatefulSet ρ)
  | jsonMarshal (obj : StatefulSet ρ)
  | createTwoWayMergePatch (original modified : Bytes)
  | patch (ns name : String) (pt : PatchType) (data : Bytes)
  deriving DecidableEq, Repr

/-- One execution of `initializeStatefulset`: the calls it made, in order, and
how it ended. -/
structure Exec (ρ : Type) where
  calls : List (Call ρ)
  outcome : Outcome
  deriving DecidableEq, Repr

/-- The library and the cluster, as seen from `initializeStatefulset`. -/
structure Api (ρ : Type) where
  /-- Encoder `json.Marshal` on a StatefulSet. -/
  jsonMarshal : StatefulSet ρ → Except Error Bytes
  /-- Differ `strategicpatch.CreateTwoWayMergePatch(original, modified, v1.StatefulSet{})`. -/
  createTwoWayMergePatch : Bytes → Bytes → Except Error Bytes
  /-- The error of `clientset.AppsV1().StatefulSets(ns).Patch(name, pt, data)`. -/
  patch : String → String → PatchType → Bytes → Option Error

/-! ## Constants of `main.go` -/

/-- Line 26. -/
def defaultInitializerName : String := "mpp.initializer.kubernetes.io"

/-- Line 27. -/
def defaultConfigmap : String := "mpp-initializer"

/-! ## `initializeStatefulset` (lines 97-132) -/

/-- Line 108: the append through
`initializedSS.Spec.Template.Spec.Affinity.PodAntiAffinity`; both pointers of the
chain are dereferenced, and a nil one panics. -/
def appendRequired {ρ : Type} (initializedSS : StatefulSet ρ) (term : PodAffinityTerm) :
    Except Panic (StatefulSet ρ) :=
  match initializedSS.Spec.Template.Spec.Affinity with
  | none => .error .nilPointerDereference
  | some affinity =>
    match affinity.PodAntiAffinity with
    | none => .error .nilPointerDereference
    | some anti =>
      .ok { initializedSS with
        Spec := { initializedSS.Spec with
          Template := { initializedSS.Spec.Template with
            Spec := { initializedSS.Spec.Template.Spec with
              Affinity := some { affinity with
                PodAntiAffinity := some { anti with
                  RequiredDuringSchedulingIgnoredDuringExecution :=
                    anti.RequiredDuringSchedulingIgnoredDuringExecution ++ [term] } } } } } }

/-- Lines 104-108: the local `initializedSS` once line 108 has run: a deep copy of
`ss` (a value, so the copy is `ss` itself), its `Initializers` set to nil, the term
appended. -/
def initializedSS {ρ : Type} (ss : StatefulSet ρ) (term : PodAffinityTerm) :
    Except Panic (StatefulSet ρ) :=
  appendRequired { ss with ObjectMeta := { ss.ObjectMeta with Initializers := none } } term

/-- Lines 110-128: the four fallible steps on the original and the copy. -/
def submit {ρ : Type} (api : Api ρ) (ss copy : StatefulSet ρ) : Exec ρ :=
  match api.jsonMarshal ss with
  | .error err => ⟨[.jsonMarshal ss], .returned (some err)⟩
  | .ok oldData =>
    match api.jsonMarshal copy with
    | .error err => ⟨[.jsonMarshal ss, .jsonMarshal copy], .returned (some err)⟩
    | .ok newData =>
      match api.createTwoWayMergePatch oldData newData with
      | .error err =>
        ⟨[.jsonMarshal ss, .jsonMarshal copy, .createTwoWayMergePatch oldData newData],
          .returned (some err)⟩
      | .ok patchBytes =>
        ⟨[.jsonMarshal ss, .jsonMarshal copy, .createTwoWayMergePatch oldData newData,
            .patch ss.ObjectMeta.Namespace ss.ObjectMeta.Name .MergePatchType patchBytes],
          .returned (api.patch ss.ObjectMeta.Namespace ss.ObjectMeta.Name .MergePatchType
            patchBytes)⟩

/-- The function `initializeStatefulset` of lines 97-132; the package variable
`initializerName` is a parameter. -/
def initializeStatefulset {ρ : Type} (api : Api ρ) (initializerName : String)
    (ss : StatefulSet ρ) (term : PodAffinityTerm) : Exec ρ :=
  match ss.ObjectMeta.Initializers with
  | none => ⟨[], .returned none⟩
  | some initializers =>
    match initializers.Pending with
    | [] => ⟨[], .panicked .indexOutOfRange⟩
    | first :: _ =>
      let logged : List (Call ρ) :=
        if initializerName = first.Name then
          [.logPrintf ("initializing statefulset " ++ ss.ObjectMeta.Name ++ "\n")]
        else []
      match initializedSS ss term with
      | .error p => ⟨logged ++ [.deepCopyInto ss], .panicked p⟩
      | .ok copy =>
        let rest := submit api ss copy
        ⟨logged ++ .deepCopyInto ss :: rest.calls, rest.outcome⟩

/-! ## `configmapToTerm` (lines 134-142) and the startup part of `main` (lines 36-87) -/

/-- How the process ends when it ends before `main` returns: `log.Fatalln` with
the logged text, or a panic. -/
inductive Exit where
  | fatal (line : String)
  | panicked (p : Panic)
  deriving DecidableEq, Repr

/-- The command-line flags of lines 37-39. -/
structure Flags where
  initializerName : String
  configmap : String
  /-- The flag `namespace` (a reserved word in Lean). -/
  ns : String
  deriving DecidableEq, Repr

/-- The flag defaults of lines 37-39. -/
def Flags.defaults : Flags :=
  ⟨defaultInitializerName, defaultConfigmap, "default"⟩

/-- The library and the cluster, as seen from the startup part of `main`. -/
structure Cluster where
  /-- The error of `clientcmd.BuildConfigFromFlags("", "/root/.kube/config")`. -/
  buildConfigFromFlags : Option Error
  /-- The error of `kubernetes.NewForConfig(clusterConfig)`. -/
  newForConfig : Option Error
  /-- Both results of `clientset.CoreV1().ConfigMaps(namespace).Get(configmap, ...)`. -/
  getConfigMap : String → String → Option ConfigMap × Option Error
  /-- Decoder `yaml.Unmarshal(data, &term)` on a zero `term`: the term afterwards and the error. -/
  yamlUnmarshal : String → PodAffinityTerm × Option Error

/-- The function `configmapToTerm` of lines 134-142.  A missing key of the Go map
reads as the empty string; `log.Fatalln` ends the process. -/
def configmapToTerm (yamlUnmarshal : String → PodAffinityTerm × Option Error)
    (configmap : Option ConfigMap) : Except Exit (PodAffinityTerm × Option Error) :=
  match configmap with
  | none => .error (.panicked .nilPointerDereference)
  | some cm =>
    match yamlUnmarshal ((cm.Data.lookup "config").getD "") with
    | (_, some err) => .error (.fatal err)
    | (term, none) => .ok (term, none)

/-- Where the startup part of `main` gets to: the process has ended, or the
informer has been created with a handler closed over `term` and started
(lines 75-87). -/
inductive Startup where
  | exited (e : Exit)
  | informerRunning (term : PodAffinityTerm)
  deriving DecidableEq, Repr

/-- The function `main`, lines 36-87.  The error of `Get` on line 53 is assigned
and then overwritten by line 54 without being read. -/
def main (cluster : Cluster) (flags : Flags) : Startup :=
  match cluster.buildConfigFromFlags with
  | some err => .exited (.fatal err)
  | none =>
    match cluster.newForConfig with
    | some err => .exited (.fatal err)
    | none =>
      match cluster.getConfigMap flags.ns flags.configmap with
      | (cm, _) =>
        match configmapToTerm cluster.yamlUnmarshal cm with
        | .error e => .exited e
        | .ok (_, some err) => .exited (.fatal err)
        | .ok (term, none) => .informerRunning term

/-! ## Observations on an execution -/

/-- Whether a recorded call is the API request `Patch`. -/
def Call.isPatch {ρ : Type} : Call ρ → Bool
  | .patch _ _ _ _ => true
  | _ => false

/-- Whether a recorded call is a log line. -/
def Call.isLog {ρ : Type} : Call ρ → Bool
  | .logPrintf _ => true
  | _ => false

/-- The patch requests of an execution, in order. -/
def patchCalls {ρ : Type} (e : Exec ρ) : List (Call ρ) :=
  e.calls.filter Call.isPatch

/-- The calls of an execution other than log lines, in order. -/
def effectCalls {ρ : Type} (e : Exec ρ) : List (Call ρ) :=
  e.calls.filter (fun c => !c.isLog)

/-! ## Concrete objects of the scenarios -/

/-- The term of the scenarios: topology key `kubernetes.io/hostname`, selector
`app=foo`. -/
def hostnameTerm : PodAffinityTerm :=
  ⟨some ⟨[("app", "foo")], []⟩, [], "kubernetes.io/hostname"⟩

/-- A StatefulSet named `name` in namespace `default` with the given pending
initializers and pod affinity. -/
def statefulSet (name : String) (initializers : Option (Initializers Unit))
    (affinity : Option (Affinity Unit)) : StatefulSet Unit :=
  ⟨⟨name, "default", initializers, ()⟩, ⟨⟨⟨affinity, ()⟩, ()⟩, ()⟩, ()⟩

/-- An affinity block whose anti-affinity has no required term yet. -/
def emptyAntiAffinity : Affinity Unit := ⟨some ⟨[], ()⟩, ()⟩

/-- The StatefulSet `web` pending this initializer, with an anti-affinity block. -/
def web : StatefulSet Unit :=
  statefulSet "web" (some ⟨[⟨defaultInitializerName⟩], none⟩) (some emptyAntiAffinity)

/-- The StatefulSet `web` pending this initializer, its pod template without an
affinity block. -/
def webNoAffinity : StatefulSet Unit :=
  statefulSet "web" (some ⟨[⟨defaultInitializerName⟩], none⟩) none

/-- A StatefulSet whose `Initializers` is present with an empty pending list and a
result status. -/
def webEmptyPending : StatefulSet Unit :=
  statefulSet "web" (some ⟨[], some ()⟩) (some emptyAntiAffinity)

/-- The StatefulSet `web2`, where this initializer is second in the pending list. -/
def web2 : StatefulSet Unit :=
  statefulSet "web2" (some ⟨[⟨"other.initializer.io"⟩, ⟨defaultInitializerName⟩], none⟩)
    (some emptyAntiAffinity)

/-- The copy of lines 104-108 for `web`. -/
def webInitialized : StatefulSet Unit :=
  statefulSet "web" none (some ⟨some ⟨[hostnameTerm], ()⟩, ()⟩)

/-- A library in which every step succeeds: the encoding lists the name, the
pending initializers and the topology keys of the required terms. -/
def okApi : Api Unit where
  jsonMarshal := fun ss => .ok (String.intercalate "," (ss.ObjectMeta.Name ::
    ((match ss.ObjectMeta.Initializers with
      | none => []
      | some i => i.Pending.map (fun p => p.Name)) ++
     (match ss.Spec.Template.Spec.Affinity with
      | none => []
      | some a =>
        match a.PodAntiAffinity with
        | none => []
        | some p => p.RequiredDuringSchedulingIgnoredDuringExecution.map
            (fun t => t.TopologyKey)))))
  createTwoWayMergePatch := fun original modified => .ok (original ++ "=>" ++ modified)
  patch := fun _ _ _ _ => none

/-- The library `okApi`, except that the API server rejects every patch request. -/
def conflictApi : Api Unit :=
  { okApi with patch := fun _ _ _ _ => some "conflict" }

/-- The library `okApi`, except that the encoder fails on every object. -/
def brokenEncoderApi : Api Unit :=
  { okApi with jsonMarshal := fun _ => .error "json: unsupported value" }

/-- The copy of lines 104-108 for `web2`. -/
def web2Initialized : StatefulSet Unit :=
  statefulSet "web2" none (some ⟨some ⟨[hostnameTerm], ()⟩, ()⟩)

/-- The zero value of `corev1.PodAffinityTerm`. -/
def zeroTerm : PodAffinityTerm := ⟨none, [], ""⟩

/-- A cluster without the ConfigMap: `Get` answers with an empty object and a
not-found error, and the decoder maps the empty document to the zero term without
an error. -/
def notFoundCluster : Cluster where
  buildConfigFromFlags := none
  newForConfig := none
  getConfigMap := fun _ name => (some ⟨[]⟩, some ("configmaps \"" ++ name ++ "\" not found"))
  yamlUnmarshal := fun data =>
    if data = "" then (zeroTerm, none) else (zeroTerm, some "yaml: document not expected")

end MppInitializer

namespace MppInitializer

/-! ## Lemmas on the copy of lines 104-108 -/

/-- With both pointers of the chain set, line 108 succeeds and changes the list of
required terms only. -/
theorem appendRequired_ok {ρ : Type} (x : StatefulSet ρ) (term : PodAffinityTerm)
    (affinity : Affinity ρ) (anti : PodAntiAffinity ρ)
    (ha : x.Spec.Template.Spec.Affinity = some affinity)
    (hp : affinity.PodAntiAffinity = some anti) :
    appendRequired x term = .ok
      ⟨x.ObjectMeta,
       ⟨⟨⟨some ⟨some ⟨anti.RequiredDuringSchedulingIgnoredDuringExecution ++ [term],
                     anti.Other⟩, affinity.Other⟩,
          x.Spec.Template.Spec.Other⟩, x.Spec.Template.Other⟩, x.Spec.Other⟩,
       x.Other⟩ := by
  simp [appendRequired, ha, hp]

/-- Line 108 panics exactly when a pointer of the chain is nil. -/
theorem appendRequired_panics {ρ : Type} (x : StatefulSet ρ) (term : PodAffinityTerm)
    (p : Panic) (h : appendRequired x term = .error p) :
    p = .nilPointerDereference ∧
      (x.Spec.Template.Spec.Affinity = none ∨
        ∃ affinity, x.Spec.Template.Spec.Affinity = some affinity ∧
          affinity.PodAntiAffinity = none) := by
  unfold appendRequired at h
  split at h
  · rename_i hnone
    cases h
    exact ⟨rfl, Or.inl hnone⟩
  · rename_i affinity hsome
    split at h
    · rename_i hnone
      cases h
      exact ⟨rfl, Or.inr ⟨affinity, hsome, hnone⟩⟩
    · cases h

/-- Line 108 leaves the metadata of its argument alone. -/
theorem appendRequired_objectMeta {ρ : Type} (x y : StatefulSet ρ) (term : PodAffinityTerm)
    (h : appendRequired x term = .ok y) : y.ObjectMeta = x.ObjectMeta := by
  unfold appendRequired at h
  split at h
  · cases h
  · split at h
    · cases h
    · cases h
      rfl

/-- The copy of lines 104-108 has no `Initializers`. -/
theorem initializedSS_initializers {ρ : Type} (ss copy : StatefulSet ρ)
    (term : PodAffinityTerm) (h : initializedSS ss term = .ok copy) :
    copy.ObjectMeta.Initializers = none := by
  unfold initializedSS at h
  rw [appendRequired_objectMeta _ _ _ h]

/-- The copy of lines 104-108, field by field, when both pointers of the chain
are set. -/
theorem initializedSS_ok {ρ : Type} (ss : StatefulSet ρ) (term : PodAffinityTerm)
    (affinity : Affinity ρ) (anti : PodAntiAffinity ρ)
    (ha : ss.Spec.Template.Spec.Affinity = some affinity)
    (hp : affinity.PodAntiAffinity = some anti) :
    initializedSS ss term = .ok
      ⟨⟨ss.ObjectMeta.Name, ss.ObjectMeta.Namespace, none, ss.ObjectMeta.Other⟩,
       ⟨⟨⟨some ⟨some ⟨anti.RequiredDuringSchedulingIgnoredDuringExecution ++ [term],
                     anti.Other⟩, affinity.Other⟩,
          ss.Spec.Template.Spec.Other⟩, ss.Spec.Template.Other⟩, ss.Spec.Other⟩,
       ss.Other⟩ := by
  exact appendRequired_ok _ term affinity anti ha hp

/-- The calls of lines 110-128 start with the encoding of the original. -/
theorem submit_calls_head {ρ : Type} (api : Api ρ) (ss copy : StatefulSet ρ) :
    ∃ rest, (submit api ss copy).calls = Call.jsonMarshal ss :: rest := by
  unfold submit
  split
  · exact ⟨_, rfl⟩
  · split
    · exact ⟨_, rfl⟩
    · split
      · exact ⟨_, rfl⟩
      · exact ⟨_, rfl⟩

/-- Lines 110-128 never panic. -/
theorem submit_returns {ρ : Type} (api : Api ρ) (ss copy : StatefulSet ρ) :
    ∃ err, (submit api ss copy).outcome = .returned err := by
  unfold submit
  split
  · exact ⟨_, rfl⟩
  · split
    · exact ⟨_, rfl⟩
    · split
      · exact ⟨_, rfl⟩
      · exact ⟨_, rfl⟩

/-- Lines 110-128 send at most one patch request. -/
theorem submit_patch_le {ρ : Type} (api : Api ρ) (ss copy : StatefulSet ρ) :
    ((submit api ss copy).calls.filter Call.isPatch).length ≤ 1 := by
  unfold submit
  cases h1 : api.jsonMarshal ss with
  | error e1 => simp [Call.isPatch]
  | ok oldData =>
    cases h2 : api.jsonMarshal copy with
    | error e2 => simp [Call.isPatch]
    | ok newData =>
      cases h3 : api.createTwoWayMergePatch oldData newData with
      | error e3 => simp [Call.isPatch, h3]
      | ok patchBytes => simp [Call.isPatch, h3]

/-! ## Theorems -/

/-- C10: on a snapshot whose `Initializers` is non-nil with at least one pending
entry and whose pod template has a non-nil `Affinity` with a non-nil
`PodAntiAffinity`, the index `pendingInitializers[0]` and the dereference chain of
line 108 succeed (the copy is built), the execution does not panic, and it
reaches the serialization step: `json.Marshal` of the original is called. -/
theorem initializeStatefulset_fault_free {ρ : Type} (api : Api ρ) (initializerName : String)
    (ss : StatefulSet ρ) (term : PodAffinityTerm) (initializers : Initializers ρ)
    (first : Initializer) (others : List Initializer) (affinity : Affinity ρ)
    (anti : PodAntiAffinity ρ)
    (hi : ss.ObjectMeta.Initializers = some initializers)
    (hpend : initializers.Pending = first :: others)
    (ha : ss.Spec.Template.Spec.Affinity = some affinity)
    (hp : affinity.PodAntiAffinity = some anti) :
    (∃ copy, initializedSS ss term = .ok copy) ∧
    (∀ p, (initializeStatefulset api initializerName ss term).outcome ≠ .panicked p) ∧
    Call.jsonMarshal ss ∈ (initializeStatefulset api initializerName ss term).calls := by
  obtain ⟨copy, hcopy⟩ : ∃ copy, initializedSS ss term = .ok copy :=
    ⟨_, initializedSS_ok ss term affinity anti ha hp⟩
  obtain ⟨rest, hrest⟩ := submit_calls_head api ss copy
  obtain ⟨err, herr⟩ := submit_returns api ss copy
  refine ⟨⟨copy, hcopy⟩, ?_, ?_⟩
  · intro p
    simp only [initializeStatefulset, hi, hpend, hcopy, herr]
    simp
  · simp only [initializeStatefulset, hi, hpend, hcopy, hrest]
    simp

/-- C10, at the StatefulSet `web`. -/
theorem initializeStatefulset_fault_free_witness :
    (∃ copy, initializedSS web hostnameTerm = .ok copy) ∧
    (∀ p, (initializeStatefulset okApi defaultInitializerName web hostnameTerm).outcome
      ≠ .panicked p) ∧
    Call.jsonMarshal web ∈
      (initializeStatefulset okApi defaultInitializerName web hostnameTerm).calls :=
  initializeStatefulset_fault_free okApi defaultInitializerName web hostnameTerm
    ⟨[⟨defaultInitializerName⟩], none⟩ ⟨defaultInitializerName⟩ [] emptyAntiAffinity ⟨[], ()⟩
    rfl rfl rfl rfl

/-- C8: invoking `initializeStatefulset` on the copy that lines 104-108 of a first
invocation produced makes no call at all (no copy is made, no patch request is
sent) and returns nil, whatever the configured name. -/
theorem initializeStatefulset_rerun_noop {ρ : Type} (api : Api ρ) (initializerName : String)
    (ss copy : StatefulSet ρ) (term : PodAffinityTerm)
    (h : initializedSS ss term = .ok copy) :
    initializeStatefulset api initializerName copy term = ⟨[], .returned none⟩ := by
  simp only [initializeStatefulset, initializedSS_initializers ss copy term h]

/-- C8, at the StatefulSet `web`: the copy of the first invocation is
`webInitialized`, and the invocation on it does nothing. -/
theorem initializeStatefulset_rerun_noop_witness :
    initializedSS web hostnameTerm = .ok webInitialized ∧
    initializeStatefulset okApi defaultInitializerName webInitialized hostnameTerm =
      ⟨[], .returned none⟩ :=
  ⟨rfl, initializeStatefulset_rerun_noop okApi defaultInitializerName web webInitialized
    hostnameTerm rfl⟩

/-- C9: on a snapshot with a non-empty pending list, two configured names give
the same outcome and the same calls other than log lines (the same deep copy, the
same encodings, the same patch computation, the same patch request).  In
particular a snapshot whose pending list is `other.initializer.io` followed by
`mpp.initializer.kubernetes.io` is processed under this program's default name as
under the name at the head of its list. -/
theorem initializeStatefulset_name_irrelevant {ρ : Type} (api : Api ρ)
    (name₁ name₂ : String) (ss : StatefulSet ρ) (term : PodAffinityTerm)
    (initializers : Initializers ρ) (first : Initializer) (others : List Initializer)
    (hi : ss.ObjectMeta.Initializers = some initializers)
    (hpend : initializers.Pending = first :: others) :
    ((initializeStatefulset api name₁ ss term).outcome =
        (initializeStatefulset api name₂ ss term).outcome ∧
      effectCalls (initializeStatefulset api name₁ ss term) =
        effectCalls (initializeStatefulset api name₂ ss term)) ∧
    (first.Name = "other.initializer.io" → others = [⟨defaultInitializerName⟩] →
      (initializeStatefulset api defaultInitializerName ss term).outcome =
        (initializeStatefulset api first.Name ss term).outcome ∧
      effectCalls (initializeStatefulset api defaultInitializerName ss term) =
        effectCalls (initializeStatefulset api first.Name ss term)) := by
  have key : ∀ n₁ n₂ : String,
      (initializeStatefulset api n₁ ss term).outcome =
        (initializeStatefulset api n₂ ss term).outcome ∧
      effectCalls (initializeStatefulset api n₁ ss term) =
        effectCalls (initializeStatefulset api n₂ ss term) := by
    intro n₁ n₂
    simp only [initializeStatefulset, effectCalls, hi, hpend]
    cases initializedSS ss term with
    | error p =>
      by_cases h₁ : n₁ = first.Name <;> by_cases h₂ : n₂ = first.Name <;>
        simp [h₁, h₂, Call.isLog]
    | ok copy =>
      by_cases h₁ : n₁ = first.Name <;> by_cases h₂ : n₂ = first.Name <;>
        simp [h₁, h₂, Call.isLog]
  exact ⟨key name₁ name₂, fun _ _ => key defaultInitializerName first.Name⟩

/-- C9, at the StatefulSet `web2`: a name absent from the pending list, the default
name (second in the list) and `other.initializer.io` (first in the list) give the
same outcome and the same calls other than log lines. -/
theorem initializeStatefulset_name_irrelevant_witness :
    ((initializeStatefulset okApi "some.initializer" web2 hostnameTerm).outcome =
        (initializeStatefulset okApi defaultInitializerName web2 hostnameTerm).outcome ∧
      effectCalls (initializeStatefulset okApi "some.initializer" web2 hostnameTerm) =
        effectCalls (initializeStatefulset okApi defaultInitializerName web2 hostnameTerm)) ∧
    ((initializeStatefulset okApi defaultInitializerName web2 hostnameTerm).outcome =
        (initializeStatefulset okApi "other.initializer.io" web2 hostnameTerm).outcome ∧
      effectCalls (initializeStatefulset okApi defaultInitializerName web2 hostnameTerm) =
        effectCalls (initializeStatefulset okApi "other.initializer.io" web2 hostnameTerm)) :=
  ⟨(initializeStatefulset_name_irrelevant okApi "some.initializer" defaultInitializerName
      web2 hostnameTerm ⟨[⟨"other.initializer.io"⟩, ⟨defaultInitializerName⟩], none⟩
      ⟨"other.initializer.io"⟩ [⟨defaultInitializerName⟩] rfl rfl).1,
   (initializeStatefulset_name_irrelevant okApi "some.initializer" defaultInitializerName
      web2 hostnameTerm ⟨[⟨"other.initializer.io"⟩, ⟨defaultInitializerName⟩], none⟩
      ⟨"other.initializer.io"⟩ [⟨defaultInitializerName⟩] rfl rfl).2 rfl rfl⟩

/-- C7: on a snapshot with a non-empty pending list for which the copy is built,
both encodings succeed and the patch computation succeeds, the patch requests of the
execution are exactly one, addressed to the namespace and the name of the snapshot,
of the merge patch type, carrying the computed patch; and no execution sends more
than one patch request. -/
theorem initializeStatefulset_one_patch {ρ : Type} (api : Api ρ) (initializerName : String)
    (ss : StatefulSet ρ) (term : PodAffinityTerm) :
    (∀ (initializers : Initializers ρ) (first : Initializer) (others : List Initializer)
        (copy : StatefulSet ρ) (oldData newData patchBytes : Bytes),
      ss.ObjectMeta.Initializers = some initializers →
      initializers.Pending = first :: others →
      initializedSS ss term = .ok copy →
      api.jsonMarshal ss = .ok oldData →
      api.jsonMarshal copy = .ok newData →
      api.createTwoWayMergePatch oldData newData = .ok patchBytes →
      patchCalls (initializeStatefulset api initializerName ss term) =
        [.patch ss.ObjectMeta.Namespace ss.ObjectMeta.Name .MergePatchType patchBytes]) ∧
    (patchCalls (initializeStatefulset api initializerName ss term)).length ≤ 1 := by
  constructor
  · intro initializers first others copy oldData newData patchBytes hi hpend hc h1 h2 h3
    simp only [initializeStatefulset, patchCalls, submit, hi, hpend, hc, h1, h2, h3]
    by_cases hn : initializerName = first.Name <;> simp [hn, Call.isPatch]
  · rcases hI : ss.ObjectMeta.Initializers with _ | initializers
    · simp [initializeStatefulset, patchCalls, hI]
    · rcases hP : initializers.Pending with _ | ⟨first, others⟩
      · simp [initializeStatefulset, patchCalls, hI, hP]
      · cases hc : initializedSS ss term with
        | error p =>
          by_cases hn : initializerName = first.Name <;>
            simp [initializeStatefulset, patchCalls, hI, hP, hc, hn, Call.isPatch]
        | ok copy =>
          have hle := submit_patch_le api ss copy
          by_cases hn : initializerName = first.Name <;>
            simpa [initializeStatefulset, patchCalls, hI, hP, hc, hn, Call.isPatch,
              List.filter_cons] using hle

/-- C7, at the StatefulSet `web`: one patch request, to `default`/`web`. -/
theorem initializeStatefulset_one_patch_witness :
    patchCalls (initializeStatefulset okApi defaultInitializerName web hostnameTerm) =
      [.patch "default" "web" .MergePatchType
        "web,mpp.initializer.kubernetes.io=>web,kubernetes.io/hostname"] :=
  (initializeStatefulset_one_patch okApi defaultInitializerName web hostnameTerm).1
    ⟨[⟨defaultInitializerName⟩], none⟩ ⟨defaultInitializerName⟩ [] webInitialized
    "web,mpp.initializer.kubernetes.io" "web,kubernetes.io/hostname"
    "web,mpp.initializer.kubernetes.io=>web,kubernetes.io/hostname"
    rfl rfl rfl rfl rfl rfl

/-- C6, as amended: on a snapshot with a non-empty pending list for which the copy
of lines 104-108 is built, each of the four steps surfaces its failure.  If
`json.Marshal` of the original fails, that error is returned and nothing follows;
otherwise if `json.Marshal` of the copy fails, that error is returned and nothing
follows; otherwise if `CreateTwoWayMergePatch` fails, that error is returned and no
patch request is sent; otherwise one patch request is sent and its result (nil or
its error) is returned.  The result is the error `err` if and only if one of the
four steps failed with `err`.  Every step is called at most once. -/
theorem initializeStatefulset_error_surfaced {ρ : Type} (api : Api ρ)
    (initializerName : String) (ss copy : StatefulSet ρ) (term : PodAffinityTerm)
    (initializers : Initializers ρ) (first : Initializer) (others : List Initializer)
    (hi : ss.ObjectMeta.Initializers = some initializers)
    (hpend : initializers.Pending = first :: others)
    (hc : initializedSS ss term = .ok copy) :
    (∀ err, api.jsonMarshal ss = .error err →
      (initializeStatefulset api initializerName ss term).outcome = .returned (some err) ∧
      effectCalls (initializeStatefulset api initializerName ss term) =
        [.deepCopyInto ss, .jsonMarshal ss]) ∧
    (∀ oldData err, api.jsonMarshal ss = .ok oldData → api.jsonMarshal copy = .error err →
      (initializeStatefulset api initializerName ss term).outcome = .returned (some err) ∧
      effectCalls (initializeStatefulset api initializerName ss term) =
        [.deepCopyInto ss, .jsonMarshal ss, .jsonMarshal copy]) ∧
    (∀ oldData newData err, api.jsonMarshal ss = .ok oldData →
      api.jsonMarshal copy = .ok newData →
      api.createTwoWayMergePatch oldData newData = .error err →
      (initializeStatefulset api initializerName ss term).outcome = .returned (some err) ∧
      effectCalls (initializeStatefulset api initializerName ss term) =
        [.deepCopyInto ss, .jsonMarshal ss, .jsonMarshal copy,
          .createTwoWayMergePatch oldData newData]) ∧
    (∀ oldData newData patchBytes, api.jsonMarshal ss = .ok oldData →
      api.jsonMarshal copy = .ok newData →
      api.createTwoWayMergePatch oldData newData = .ok patchBytes →
      (initializeStatefulset api initializerName ss term).outcome =
        .returned (api.patch ss.ObjectMeta.Namespace ss.ObjectMeta.Name .MergePatchType
          patchBytes) ∧
      effectCalls (initializeStatefulset api initializerName ss term) =
        [.deepCopyInto ss, .jsonMarshal ss, .jsonMarshal copy,
          .createTwoWayMergePatch oldData newData,
          .patch ss.ObjectMeta.Namespace ss.ObjectMeta.Name .MergePatchType patchBytes]) ∧
    (∀ err, (initializeStatefulset api initializerName ss term).outcome = .returned (some err) ↔
      (api.jsonMarshal ss = .error err ∨
       (∃ oldData, api.jsonMarshal ss = .ok oldData ∧ api.jsonMarshal copy = .error err) ∨
       (∃ oldData newData, api.jsonMarshal ss = .ok oldData ∧
          api.jsonMarshal copy = .ok newData ∧
          api.createTwoWayMergePatch oldData newData = .error err) ∨
       (∃ oldData newData patchBytes, api.jsonMarshal ss = .ok oldData ∧
          api.jsonMarshal copy = .ok newData ∧
          api.createTwoWayMergePatch oldData newData = .ok patchBytes ∧
          api.patch ss.ObjectMeta.Namespace ss.ObjectMeta.Name .MergePatchType patchBytes =
            some err))) := by
  have hcalls : ∀ rest : List (Call ρ), (∀ c ∈ rest, c.isLog = false) →
      List.filter (fun c => !c.isLog)
        ((if initializerName = first.Name then
            [Call.logPrintf ("initializing statefulset " ++ ss.ObjectMeta.Name ++ "\n")]
          else []) ++ rest) = rest := by
    intro rest hrest
    have hfilter : List.filter (fun c : Call ρ => !c.isLog) rest = rest :=
      List.filter_eq_self.mpr (fun c hmem => by simp [hrest c hmem])
    by_cases hn : initializerName = first.Name
    · rw [if_pos hn]
      show List.filter _ (_ :: rest) = rest
      rw [List.filter_cons_of_neg (by simp [Call.isLog]), hfilter]
    · rw [if_neg hn]
      exact hfilter
  refine ⟨?_, ?_, ?_, ?_, ?_⟩
  · intro err h1
    simp only [initializeStatefulset, effectCalls, submit, hi, hpend, hc, h1]
    exact ⟨trivial, hcalls _ (by simp [Call.isLog])⟩
  · intro oldData err h1 h2
    simp only [initializeStatefulset, effectCalls, submit, hi, hpend, hc, h1, h2]
    exact ⟨trivial, hcalls _ (by simp [Call.isLog])⟩
  · intro oldData newData err h1 h2 h3
    simp only [initializeStatefulset, effectCalls, submit, hi, hpend, hc, h1, h2, h3]
    exact ⟨trivial, hcalls _ (by simp [Call.isLog])⟩
  · intro oldData newData patchBytes h1 h2 h3
    simp only [initializeStatefulset, effectCalls, submit, hi, hpend, hc, h1, h2, h3]
    exact ⟨trivial, hcalls _ (by simp [Call.isLog])⟩
  · intro err
    simp only [initializeStatefulset, submit, hi, hpend, hc]
    cases h1 : api.jsonMarshal ss with
    | error e1 => simp [h1]
    | ok oldData =>
      cases h2 : api.jsonMarshal copy with
      | error e2 => simp [h1, h2]
      | ok newData =>
        cases h3 : api.createTwoWayMergePatch oldData newData with
        | error e3 => simp [h1, h2, h3]
        | ok patchBytes => simp [h1, h2, h3]

/-- C6, as amended, at the StatefulSet `web`: with a failing encoder the error of
the encoder is returned and nothing follows the first encoding; with an API server
that answers `conflict` that error is returned after one patch request; when
every step succeeds nil is returned. -/
theorem initializeStatefulset_error_surfaced_witness :
    ((initializeStatefulset brokenEncoderApi defaultInitializerName web hostnameTerm).outcome =
        .returned (some "json: unsupported value") ∧
      effectCalls (initializeStatefulset brokenEncoderApi defaultInitializerName web
        hostnameTerm) = [.deepCopyInto web, .jsonMarshal web]) ∧
    (initializeStatefulset conflictApi defaultInitializerName web hostnameTerm).outcome =
      .returned (some "conflict") ∧
    (initializeStatefulset okApi defaultInitializerName web hostnameTerm).outcome =
      .returned none :=
  ⟨(initializeStatefulset_error_surfaced brokenEncoderApi defaultInitializerName web
      webInitialized hostnameTerm ⟨[⟨defaultInitializerName⟩], none⟩
      ⟨defaultInitializerName⟩ [] rfl rfl rfl).1 "json: unsupported value" rfl,
   ((initializeStatefulset_error_surfaced conflictApi defaultInitializerName web
      webInitialized hostnameTerm ⟨[⟨defaultInitializerName⟩], none⟩
      ⟨defaultInitializerName⟩ [] rfl rfl rfl).2.2.2.1
      "web,mpp.initializer.kubernetes.io" "web,kubernetes.io/hostname"
      "web,mpp.initializer.kubernetes.io=>web,kubernetes.io/hostname" rfl rfl rfl).1,
   ((initializeStatefulset_error_surfaced okApi defaultInitializerName web
      webInitialized hostnameTerm ⟨[⟨defaultInitializerName⟩], none⟩
      ⟨defaultInitializerName⟩ [] rfl rfl rfl).2.2.2.1
      "web,mpp.initializer.kubernetes.io" "web,kubernetes.io/hostname"
      "web,mpp.initializer.kubernetes.io=>web,kubernetes.io/hostname" rfl rfl rfl).1⟩

/-- C6, as stated, fails: `webNoAffinity` has a non-empty pending list, and with
the library `okApi` no encoding, no patch computation and no patch request can
fail; yet the invocation does not return nil (it returns nothing: line 108
panics before the first step). -/
theorem initializeStatefulset_no_failure_not_nil :
    (∃ initializers first others,
      webNoAffinity.ObjectMeta.Initializers = some initializers ∧
      initializers.Pending = first :: others) ∧
    (∀ obj, ∃ data, okApi.jsonMarshal obj = .ok data) ∧
    (∀ original modified, ∃ data, okApi.createTwoWayMergePatch original modified = .ok data) ∧
    (∀ ns name pt data, okApi.patch ns name pt data = none) ∧
    (initializeStatefulset okApi defaultInitializerName webNoAffinity hostnameTerm).outcome ≠
      .returned none ∧
    (initializeStatefulset okApi defaultInitializerName webNoAffinity hostnameTerm).outcome =
      .panicked .nilPointerDereference :=
  ⟨⟨_, _, _, rfl, rfl⟩, fun _ => ⟨_, rfl⟩, fun _ _ => ⟨_, rfl⟩, fun _ _ _ _ => rfl,
    by decide, by decide⟩

/-! ## Where the code leaves the specification -/

/-- C1: on the StatefulSet `web` pending this initializer whose pod template has no
affinity block, line 108 panics with a nil pointer dereference: no copy is built
and the execution ends after the log line and the deep copy, without any
encoding or patch request. -/
theorem initializeStatefulset_nil_affinity_panics (api : Api Unit) :
    initializedSS webNoAffinity hostnameTerm = .error .nilPointerDereference ∧
    initializeStatefulset api defaultInitializerName webNoAffinity hostnameTerm =
      ⟨[.logPrintf "initializing statefulset web\n", .deepCopyInto webNoAffinity],
        .panicked .nilPointerDereference⟩ :=
  ⟨rfl, rfl⟩

/-- C2: on a StatefulSet whose `Initializers` is present with an empty pending
list, the index `pendingInitializers[0]` panics; the execution does not return
nil. -/
theorem initializeStatefulset_empty_pending_panics (api : Api Unit) (initializerName : String)
    (term : PodAffinityTerm) :
    initializeStatefulset api initializerName webEmptyPending term =
      ⟨[], .panicked .indexOutOfRange⟩ :=
  rfl

/-- The part of C2 that holds: with `Initializers` nil the execution makes no call
and returns nil. -/
theorem initializeStatefulset_nil_initializers {ρ : Type} (api : Api ρ)
    (initializerName : String) (ss : StatefulSet ρ) (term : PodAffinityTerm)
    (h : ss.ObjectMeta.Initializers = none) :
    initializeStatefulset api initializerName ss term = ⟨[], .returned none⟩ := by
  simp only [initializeStatefulset, h]

/-- C5: on the StatefulSet `web2`, whose first pending entry is
`other.initializer.io`, under the default name `mpp.initializer.kubernetes.io`,
the copy is built and encoded and one patch request is sent; only the log line is
skipped. -/
theorem initializeStatefulset_not_first_still_patches :
    (⟨"other.initializer.io"⟩ : Initializer).Name ≠ defaultInitializerName ∧
    initializeStatefulset okApi defaultInitializerName web2 hostnameTerm =
      ⟨[.deepCopyInto web2, .jsonMarshal web2, .jsonMarshal web2Initialized,
        .createTwoWayMergePatch "web2,other.initializer.io,mpp.initializer.kubernetes.io"
          "web2,kubernetes.io/hostname",
        .patch "default" "web2" .MergePatchType
          "web2,other.initializer.io,mpp.initializer.kubernetes.io=>web2,kubernetes.io/hostname"],
        .returned none⟩ := by
  decide

/-- C4: when `Get` returns an error together with an empty ConfigMap and the
decoder accepts the empty document, `main` does not exit: the informer is created
and started with the zero term. -/
theorem main_get_error_starts_informer :
    (notFoundCluster.getConfigMap Flags.defaults.ns Flags.defaults.configmap).2 =
      some "configmaps \"mpp-initializer\" not found" ∧
    main notFoundCluster Flags.defaults = .informerRunning zeroTerm := by
  decide

/-- The error of `Get` never reaches the outcome of `main`: two clusters that
differ in that error only start up alike. -/
theorem main_ignores_get_error (cluster : Cluster) (flags : Flags)
    (err : Option Error) :
    main { cluster with
      getConfigMap := fun ns name => ((cluster.getConfigMap ns name).1, err) } flags =
    main cluster flags := by
  simp only [main]

/-- The part of C4 that holds: when the decoder reports an error on the document
under the key `config`, `main` ends in `log.Fatalln` with that error. -/
theorem main_parse_failure_fatal (cluster : Cluster) (flags : Flags) (cm : ConfigMap)
    (getErr : Option Error) (term : PodAffinityTerm) (err : Error)
    (hb : cluster.buildConfigFromFlags = none) (hn : cluster.newForConfig = none)
    (hg : cluster.getConfigMap flags.ns flags.configmap = (some cm, getErr))
    (hy : cluster.yamlUnmarshal ((cm.Data.lookup "config").getD "") = (term, some err)) :
    main cluster flags = .exited (.fatal err) := by
  simp only [main, configmapToTerm, hb, hn, hg, hy]

end MppInitializer
